import Mathlib

/-!
Shallow embedding of the overlay state engines of `grail-ui`:
`src/packages/grail-ui/src/tooltip/tooltip.ts` and
`src/packages/grail-ui/src/menu/menu.ts`.

The two widget files are the authority. Their collaborators
(`createTimeout`, `writableEffect`, `listKeyManager`, `getPlacement`,
`noop`) are not part of the sources, so they are modelled from the
specification (sections 3, 4.1, 4.2, 6, 9), as marked on each definition.

Modelling conventions:
* Element references become `Option` values (`none` = unmounted).
* The placement collaborator's attach calls and cleanup invocations,
  `OpenState` commits, and focus movements are recorded in an event log,
  so that counting and ordering claims can be stated over the log.
* Timers are modelled qualitatively: a `pending` flag plus the stored
  delay.  `immediate := false` (spec section 4.1) means the scheduled
  action is a *separate* scheduler step (`fireShowTimer` / `fireHideTimer`)
  that can only run while the timer is pending; it never runs inside
  `show`/`hide` themselves.
* The observable cell (`writableEffect`, modelled from spec sections 3
  and 9) commits only on an actual value change; a commit appends to the
  log, runs the registered effect, then notifies the subscriber
  (`react`), which embodies the `derived([open$, element$])` subscriber
  of the sources.
-/

namespace GrailUI

/-- Observable events of a widget run: placement attach calls (numbered),
invocations of a returned cleanup handle (by the number of the attach that
produced it), committed `OpenState` changes, and focus movements. -/
inductive LogEntry where
  | attach (id : Nat)
  | cleanupRun (id : Nat)
  | commitOpen (b : Bool)
  | focusTrigger
  | focusOverlay
  | focusItem (idx : Nat)
  deriving DecidableEq, Repr

/-! ## Tooltip (`tooltip.ts`) -/

/-- Configuration of `createTooltip` (lines 13-19): `open = false`,
`openDelay = 1000` are the defaults. -/
structure TooltipConfig where
  initialOpen : Bool := false
  openDelay : Nat := 1000
  deriving Repr

/-- State of one tooltip widget instance together with its trigger
action's wiring.  `cleanup = none` models the `noop` cleanup; `some k`
models the cleanup handle returned by attach number `k`. -/
structure TooltipState where
  isOpen : Bool
  showPending : Bool
  showDelay : Nat
  hidePending : Bool
  hideDelay : Nat
  openDelay : Nat
  tooltipElement : Option Nat
  cleanup : Option Nat
  nextAttach : Nat
  subscribed : Bool
  eventsAttached : Bool
  log : List LogEntry
  deriving DecidableEq, Repr

/-- Invoking the stored cleanup handle (`cleanup()` in the sources).
Invoking the `noop` handle does nothing; invoking handle `k` records a
`cleanupRun k`.  NOTE (faithful to the sources): invoking does NOT
replace the stored handle. -/
def invokeCleanup (s : TooltipState) : TooltipState :=
  match s.cleanup with
  | none => s
  | some k => { s with log := s.log ++ [LogEntry.cleanupRun k] }

/-- `init` (tooltip.ts lines 29-32): `cleanup(); cleanup = getPlacement(...)`.
The placement service (spec section 6) returns a fresh cleanup handle. -/
def init (s : TooltipState) : TooltipState :=
  let s := invokeCleanup s
  { s with log := s.log ++ [LogEntry.attach s.nextAttach],
           cleanup := some s.nextAttach,
           nextAttach := s.nextAttach + 1 }

/-- Body of the `derived([open$, tooltipElement$]).subscribe` callback
(tooltip.ts lines 59-67); runs only while the subscription is live. -/
def react (s : TooltipState) : TooltipState :=
  if !s.subscribed then s
  else if s.isOpen && s.tooltipElement.isSome then init s
  else invokeCleanup s

/-- `open$.set b` through `writableEffect` (modelled from the spec,
sections 3 and 9: a commit happens only on a value change; subscribers
are notified synchronously after the commit). -/
def setOpen (s : TooltipState) (b : Bool) : TooltipState :=
  if s.isOpen = b then s
  else react { s with isOpen := b, log := s.log ++ [LogEntry.commitOpen b] }

/-- `tooltipElement$.set e` (mount/unmount of the overlay element,
tooltip.ts lines 81 and 92); notifies the joint subscriber. -/
def setTooltipElement (s : TooltipState) (e : Option Nat) : TooltipState :=
  react { s with tooltipElement := e }

/-- Timer Engine `stop` for the show timer.  Modelled from the spec,
section 4.1: cancels any pending schedule, no-op when none is pending. -/
def stopShowTimer (s : TooltipState) : TooltipState :=
  { s with showPending := false }

/-- Timer Engine `start` for the show timer.  Modelled from the spec,
section 4.1: schedules the action (sets it pending); with
`immediate := false` the action never runs inside `start` itself. -/
def startShowTimer (s : TooltipState) : TooltipState :=
  { s with showPending := true }

/-- Timer Engine `stop` for the hide timer (modelled from the spec,
section 4.1). -/
def stopHideTimer (s : TooltipState) : TooltipState :=
  { s with hidePending := false }

/-- Timer Engine `start` for the hide timer (modelled from the spec,
section 4.1). -/
def startHideTimer (s : TooltipState) : TooltipState :=
  { s with hidePending := true }

/-- `show` (tooltip.ts lines 97-101):
`stopHideTimer(); delayShowTimer.set(delay); startShowTimer();`. -/
def show' (s : TooltipState) (delay : Nat) : TooltipState :=
  startShowTimer { stopHideTimer s with showDelay := delay }

/-- `hide` (tooltip.ts lines 102-105): `stopShowTimer(); startHideTimer();`. -/
def hide (s : TooltipState) : TooltipState :=
  startHideTimer (stopShowTimer s)

/-- `toggle` (tooltip.ts line 106): flips `open$` directly. -/
def toggle (s : TooltipState) : TooltipState :=
  setOpen s (!s.isOpen)

/-- Scheduler step: the show timer's action `() => open$.set(true)`
(tooltip.ts line 38) firing.  Only possible while pending; modelled from
the spec, section 4.1. -/
def fireShowTimer (s : TooltipState) : TooltipState :=
  if s.showPending then setOpen { s with showPending := false } true else s

/-- Scheduler step: the hide timer's action `() => open$.set(false)`
(tooltip.ts line 41) firing. -/
def fireHideTimer (s : TooltipState) : TooltipState :=
  if s.hidePending then setOpen { s with hidePending := false } false else s

/-- Mounting the trigger action `useTooltipTrigger` (tooltip.ts lines
50-67): wires the events and subscribes the joint observer, which fires
once immediately with the current values. -/
def mountTrigger (s : TooltipState) : TooltipState :=
  react { s with eventsAttached := true, subscribed := true }

/-- `destroy` of `useTooltipTrigger` (tooltip.ts lines 69-76):
`cleanup(); removeEvents(); unsubscribe(); hide();`. -/
def destroy (s : TooltipState) : TooltipState :=
  hide { invokeCleanup s with eventsAttached := false, subscribed := false }

/-- The five trigger events wired by `useTooltipTrigger`
(tooltip.ts lines 51-57). -/
inductive TriggerEvent where
  | focus | blur | pointerenter | pointerleave | click
  deriving DecidableEq, Repr

/-- Dispatch of a trigger event per the wiring of tooltip.ts lines 51-57:
focus calls `show()` (delay 0), pointerenter calls `show(openDelay)`,
blur / pointerleave / click call `hide`. -/
def triggerEvent (s : TooltipState) (e : TriggerEvent) : TooltipState :=
  match e with
  | TriggerEvent.focus => show' s 0
  | TriggerEvent.blur => hide s
  | TriggerEvent.pointerenter => show' s s.openDelay
  | TriggerEvent.pointerleave => hide s
  | TriggerEvent.click => hide s

/-- Initial state built by `createTooltip` (tooltip.ts lines 13-48):
timers idle, show-timer delay 0 (line 38), hide-timer delay 500
(line 42), no overlay element, `noop` cleanup. -/
def initialTooltip (cfg : TooltipConfig) : TooltipState :=
  { isOpen := cfg.initialOpen
    showPending := false
    showDelay := 0
    hidePending := false
    hideDelay := 500
    openDelay := cfg.openDelay
    tooltipElement := none
    cleanup := none
    nextAttach := 1
    subscribed := false
    eventsAttached := false
    log := [] }

/-- Field names of the record returned by `createTooltip`
(tooltip.ts lines 108-118). -/
def tooltipReturnFields : List String :=
  ["useTooltipTrigger", "triggerAttrs", "useTooltip", "tooltipAttrs",
   "arrowAttrs", "open", "show", "hide", "toggle"]

/-! ## Menu (`menu.ts`) -/

/-- An element with `role=menuitem`: a label plus the `data-disabled`
flag tested by the menu's skip predicate (menu.ts line 58). -/
structure MenuItem where
  label : String
  disabled : Bool
  deriving DecidableEq, Repr

/-- `skipPredicate` passed to `listKeyManager` (menu.ts line 58):
an item is skipped iff `disabled` is in its dataset. -/
def skipPredicate (item : MenuItem) : Bool :=
  item.disabled

/-- State of one menu widget instance with its trigger wiring.  The
overlay element is modelled as the list of menuitem elements it contains
(`getMenuItems`, menu.ts lines 16-17, reads them off the element). -/
structure MenuState where
  isOpen : Bool
  overlayElement : Option (List MenuItem)
  items : List MenuItem
  activeIndex : Option Nat
  cleanup : Option Nat
  nextAttach : Nat
  subscribed : Bool
  eventsAttached : Bool
  triggerMounted : Bool
  deferredFocusOverlay : Bool
  log : List LogEntry
  deriving DecidableEq, Repr

/-- Invoking the menu's stored cleanup handle (`cleanup()`); same
convention as the tooltip's: a `noop` invocation does nothing, and the
stored handle is NOT replaced by the invocation. -/
def menuInvokeCleanup (s : MenuState) : MenuState :=
  match s.cleanup with
  | none => s
  | some k => { s with log := s.log ++ [LogEntry.cleanupRun k] }

/-- `setupPlacement` (menu.ts lines 77-83):
`cleanup(); cleanup = getPlacement(...)`. -/
def setupPlacement (s : MenuState) : MenuState :=
  let s := menuInvokeCleanup s
  { s with log := s.log ++ [LogEntry.attach s.nextAttach],
           cleanup := some s.nextAttach,
           nextAttach := s.nextAttach + 1 }

/-- Index of the first item not excluded by the skip predicate.
Modelled from the spec, section 4.2 (`setFirstItemActive` scan). -/
def findFirstEligible (items : List MenuItem) : Option Nat :=
  items.findIdx? (fun i => !skipPredicate i)

/-- Index of the last item not excluded by the skip predicate.
Modelled from the spec, section 4.2 (`setLastItemActive` scan). -/
def findLastEligible (items : List MenuItem) : Option Nat :=
  match items.reverse.findIdx? (fun i => !skipPredicate i) with
  | none => none
  | some r => some (items.length - 1 - r)

/-- `keyManager.setFirstItemActive` — modelled from the spec, section
4.2: scans from the front skipping excluded items and invokes
`onActivate` (here `item.focus()`, menu.ts line 60) on the first
eligible item; no-op when none is eligible. -/
def setFirstItemActive (s : MenuState) : MenuState :=
  match findFirstEligible s.items with
  | none => s
  | some i => { s with activeIndex := some i,
                       log := s.log ++ [LogEntry.focusItem i] }

/-- `keyManager.setLastItemActive` — modelled from the spec, section
4.2: scans from the back, otherwise as `setFirstItemActive`. -/
def setLastItemActive (s : MenuState) : MenuState :=
  match findLastEligible s.items with
  | none => s
  | some i => { s with activeIndex := some i,
                       log := s.log ++ [LogEntry.focusItem i] }

/-- `keyManager.setActiveItem (-1)` — modelled from the spec, section
4.2: clears the active item without invoking `onActivate`. -/
def clearActiveItem (s : MenuState) : MenuState :=
  { s with activeIndex := none }

/-- Body of the `derived([open$, overlayElement$]).subscribe` callback
(menu.ts lines 124-135): when open and the overlay is mounted, set up
placement and re-derive the item list; otherwise clear the active item
and invoke the cleanup. -/
def menuReact (s : MenuState) : MenuState :=
  if !s.subscribed then s
  else
    match s.overlayElement with
    | some overlay =>
        if s.isOpen then
          { setupPlacement s with items := overlay }
        else menuInvokeCleanup (clearActiveItem s)
    | none => menuInvokeCleanup (clearActiveItem s)

/-- `open$.set b` through the menu's `writableEffect` (menu.ts lines
29-35; cell semantics modelled from the spec, sections 3 and 9): on a
committed change the effect runs first — when opening it suspends at
`await tick()`, queueing the focus-the-overlay continuation — and then
the subscriber (`menuReact`) is notified synchronously. -/
def menuSetOpen (s : MenuState) (b : Bool) : MenuState :=
  if s.isOpen = b then s
  else
    menuReact { s with isOpen := b,
                       deferredFocusOverlay := s.deferredFocusOverlay || b,
                       log := s.log ++ [LogEntry.commitOpen b] }

/-- `await tick()` (spec section 5: the one-scheduling-turn deferral):
runs the queued continuation of the open effect, which focuses the
overlay element if it is still mounted (menu.ts line 32). -/
def menuTick (s : MenuState) : MenuState :=
  if s.deferredFocusOverlay then
    { s with deferredFocusOverlay := false,
             log := s.log ++
               (if s.overlayElement.isSome then [LogEntry.focusOverlay] else []) }
  else s

/-- `hide` (menu.ts lines 192-197): sets `open$` to false and, when
`returnFocus` is true and the trigger element is in the document,
focuses the trigger. -/
def menuHide (s : MenuState) (returnFocus : Bool) : MenuState :=
  let s := menuSetOpen s false
  if returnFocus && s.triggerMounted then
    { s with log := s.log ++ [LogEntry.focusTrigger] }
  else s

/-- `toggle` (menu.ts lines 198-200). -/
def menuToggle (s : MenuState) : MenuState :=
  menuSetOpen s (!s.isOpen)

/-- `openMenuWithArrow` (menu.ts lines 88-93): prevent default, set
`open$` to true, await a tick, then activate the first item for
ArrowDown or the last item for ArrowUp. -/
def openMenuWithArrow (s : MenuState) (isDown : Bool) : MenuState :=
  let s := menuSetOpen s true
  let s := menuTick s
  if isDown then setFirstItemActive s else setLastItemActive s

/-- The keys dispatched by the menu's keydown handlers
(`util/keyboard` constants used in menu.ts). -/
inductive Key where
  | space | enter | escape | tab | arrowDown | arrowUp | other
  deriving DecidableEq, Repr

/-- Index of the next eligible item strictly after `i`, scanning
forward.  Modelled from the spec, section 4.2 (one-step move with
`wrap = false`, skipping excluded items). -/
def nextEligibleAfter (items : List MenuItem) (i : Nat) : Option Nat :=
  match (items.drop (i + 1)).findIdx? (fun it => !skipPredicate it) with
  | none => none
  | some r => some (i + 1 + r)

/-- Index of the nearest eligible item strictly before `i`, scanning
backward.  Modelled from the spec, section 4.2. -/
def prevEligibleBefore (items : List MenuItem) (i : Nat) : Option Nat :=
  match ((items.take i).reverse.findIdx? (fun it => !skipPredicate it)) with
  | none => none
  | some r => some (i - 1 - r)

/-- `keyManager.onKeydown` restricted to the arrow keys and Tab —
modelled from the spec, section 4.2: vertical arrows move one step with
`wrap = false` (clamping at the ends), excluded items are skipped
transparently, Tab invokes `tabOut` (wired to `hide()` in menu.ts line
59); typeahead and Home/End are outside the claims and left out. -/
def keyManagerOnKeydown (s : MenuState) (k : Key) : MenuState :=
  match k with
  | Key.arrowDown =>
      match s.activeIndex with
      | none => setFirstItemActive s
      | some i =>
          match nextEligibleAfter s.items i with
          | none => s
          | some j => { s with activeIndex := some j,
                               log := s.log ++ [LogEntry.focusItem j] }
  | Key.arrowUp =>
      match s.activeIndex with
      | none => setLastItemActive s
      | some i =>
          match prevEligibleBefore s.items i with
          | none => s
          | some j => { s with activeIndex := some j,
                               log := s.log ++ [LogEntry.focusItem j] }
  | Key.tab => menuHide s false
  | _ => s

/-- The trigger's `handleKeyDown` (menu.ts lines 95-117): Space/Enter
toggle, Escape and Tab call `hide(false)`, the vertical arrows call
`openMenuWithArrow`. -/
def triggerKeydown (s : MenuState) (k : Key) : MenuState :=
  match k with
  | Key.space => menuToggle s
  | Key.enter => menuToggle s
  | Key.escape => menuHide s false
  | Key.tab => menuHide s false
  | Key.arrowDown => openMenuWithArrow s true
  | Key.arrowUp => openMenuWithArrow s false
  | Key.other => s

/-- The trigger's `click` handler (menu.ts line 120): `toggle`. -/
def triggerClick (s : MenuState) : MenuState :=
  menuToggle s

/-- The overlay's `handleKeyDown` (menu.ts lines 161-168): Escape calls
`hide(true)` and returns; every other key goes to the key manager. -/
def menuKeydown (s : MenuState) (k : Key) : MenuState :=
  match k with
  | Key.escape => menuHide s true
  | _ => keyManagerOnKeydown s k

/-- Mounting the trigger action `useTrigger` (menu.ts lines 87-146):
wires events and subscribes the joint observer (which fires once with
the current values); the trigger element carrying the menu's id is now
in the document. -/
def mountMenuTrigger (s : MenuState) : MenuState :=
  menuReact { s with eventsAttached := true, subscribed := true,
                     triggerMounted := true }

/-- `overlayElement$.set` (mount/unmount of the overlay, menu.ts lines
150 and 187); notifies the joint subscriber. -/
def setOverlayElement (s : MenuState) (e : Option (List MenuItem)) : MenuState :=
  menuReact { s with overlayElement := e }

/-- Initial state built by `createMenu` (menu.ts lines 19-85) with the
default config (`open = false`). -/
def initialMenu : MenuState :=
  { isOpen := false
    overlayElement := none
    items := []
    activeIndex := none
    cleanup := none
    nextAttach := 1
    subscribed := false
    eventsAttached := false
    triggerMounted := false
    deferredFocusOverlay := false
    log := [] }

/-- Field names of the record returned by `createMenu`
(menu.ts lines 202-211). -/
def menuReturnFields : List String :=
  ["useTrigger", "triggerAttrs", "useMenu", "menuAttrs", "itemAttrs",
   "separatorAttrs", "open"]

/-! ## Concrete demonstration states and log counting -/

/-- A tooltip instance with the default config whose trigger action is
mounted and whose overlay element (id 7) is mounted, still closed. -/
def tooltipDemoClosed : TooltipState :=
  setTooltipElement (mountTrigger (initialTooltip {})) (some 7)

/-- `tooltipDemoClosed` after one `toggle`: open, first placement
attachment established. -/
def tooltipDemoOpen : TooltipState :=
  toggle tooltipDemoClosed

/-- Menu items used in the demonstration runs: the first and the last
are disabled, so the first eligible index is 1 and the last is 2. -/
def demoItems : List MenuItem :=
  [⟨"A", true⟩, ⟨"B", false⟩, ⟨"C", false⟩, ⟨"D", true⟩]

/-- A menu instance whose trigger action and overlay element are
mounted, still closed. -/
def menuDemoReady : MenuState :=
  setOverlayElement (mountMenuTrigger initialMenu) (some demoItems)

/-- `menuDemoReady` opened with ArrowDown on the trigger. -/
def menuDemoOpen : MenuState :=
  triggerKeydown menuDemoReady Key.arrowDown

/-- Number of placement attach calls recorded in a log. -/
def attachCount (l : List LogEntry) : Nat :=
  l.countP (fun e => match e with | LogEntry.attach _ => true | _ => false)

/-- Number of invocations of returned (non-noop) cleanup handles
recorded in a log. -/
def cleanupRunCount (l : List LogEntry) : Nat :=
  l.countP (fun e => match e with | LogEntry.cleanupRun _ => true | _ => false)

/-- `n` full open/close cycles driven by `toggle` (each cycle is one
`toggle` to open and one `toggle` to close). -/
def toggleCycles (s : TooltipState) : Nat → TooltipState
  | 0 => s
  | n + 1 => toggle (toggle (toggleCycles s n))

/-- The event log produced by `toggleCycles tooltipDemoClosed n`: cycle
`n+1` commits open, re-invokes the retained handle `n` (except on the
very first cycle, when the stored cleanup is still `noop`), attaches
`n+1`, commits closed and invokes handle `n+1`. -/
def cycleLog : Nat → List LogEntry
  | 0 => []
  | n + 1 =>
      cycleLog n ++ [LogEntry.commitOpen true]
        ++ (if n = 0 then [] else [LogEntry.cleanupRun n])
        ++ [LogEntry.attach (n + 1), LogEntry.commitOpen false,
            LogEntry.cleanupRun (n + 1)]

/-- Closed form of the state after `n` full toggle cycles from
`tooltipDemoClosed`. -/
def cycleState (n : Nat) : TooltipState :=
  { isOpen := false
    showPending := false
    showDelay := 0
    hidePending := false
    hideDelay := 500
    openDelay := 1000
    tooltipElement := some 7
    cleanup := if n = 0 then none else some n
    nextAttach := n + 1
    subscribed := true
    eventsAttached := true
    log := cycleLog n }

/-! ## Theorems for the claims -/

/-- C4: for every delay `D`, calling the tooltip's `show(D)` and then
`hide()` before the show timer's action runs means `OpenState` is never
committed to true by that show call (the show timer is no longer
pending, so its firing step is disabled), and the show action never runs
synchronously inside `show()` itself, even when `D = 0`. -/
theorem tooltip_debounce_show_then_hide (s : TooltipState) (d : Nat) :
    (show' s d).isOpen = s.isOpen ∧ (show' s d).log = s.log ∧
    (hide (show' s d)).showPending = false ∧
    (hide (show' s d)).isOpen = s.isOpen ∧
    (hide (show' s d)).log = s.log ∧
    fireShowTimer (hide (show' s d)) = hide (show' s d) := by
  refine ⟨rfl, rfl, rfl, rfl, rfl, ?_⟩
  simp [fireShowTimer, hide, startHideTimer, stopShowTimer, show',
    startShowTimer, stopHideTimer]

/-- C5: after every `show()` call a previously pending hide timer is no
longer pending, and after every `hide()` call a previously pending show
timer is no longer pending. -/
theorem tooltip_timer_mutual_exclusion (s : TooltipState) (d : Nat) :
    (show' s d).hidePending = false ∧ (hide s).showPending = false :=
  ⟨rfl, rfl⟩

/-- C6: the tooltip trigger wiring — focus calls `show` with delay 0 and
pointerenter calls `show` with the configured `openDelay` (default
1000 ms), and `show` first stops the hide timer; pointerleave, blur and
click call `hide`, which stops the show timer and starts the hide timer,
whose delay is the fixed 500 ms set at creation. -/
theorem tooltip_trigger_wiring (s : TooltipState) :
    triggerEvent s TriggerEvent.focus = show' s 0 ∧
    triggerEvent s TriggerEvent.pointerenter = show' s s.openDelay ∧
    (∀ d, (show' s d).showDelay = d ∧ (show' s d).showPending = true ∧
      (show' s d).hidePending = false) ∧
    triggerEvent s TriggerEvent.pointerleave = hide s ∧
    triggerEvent s TriggerEvent.blur = hide s ∧
    triggerEvent s TriggerEvent.click = hide s ∧
    (hide s).showPending = false ∧ (hide s).hidePending = true ∧
    (hide s).hideDelay = s.hideDelay ∧
    (initialTooltip {}).openDelay = 1000 ∧
    (initialTooltip {}).hideDelay = 500 :=
  ⟨rfl, rfl, fun _ => ⟨rfl, rfl, rfl⟩, rfl, rfl, rfl, rfl, rfl, rfl, rfl, rfl⟩

/-- C7 counterexample: the record returned by `createMenu` exposes none
of `show`, `hide`, `toggle` — refuting the claim that every widget
instance exposes all three. -/
theorem menu_return_lacks_imperatives :
    "show" ∉ menuReturnFields ∧ "hide" ∉ menuReturnFields ∧
    "toggle" ∉ menuReturnFields := by
  decide

/-- C7 amended: the tooltip instance exposes the subscribable
`OpenState` (`open`) together with `show`, `hide` and `toggle`, while
the menu instance exposes `open` but none of the three imperative
operations. -/
theorem widget_exposed_surface :
    ("open" ∈ tooltipReturnFields ∧ "show" ∈ tooltipReturnFields ∧
      "hide" ∈ tooltipReturnFields ∧ "toggle" ∈ tooltipReturnFields) ∧
    ("open" ∈ menuReturnFields ∧ "show" ∉ menuReturnFields ∧
      "hide" ∉ menuReturnFields ∧ "toggle" ∉ menuReturnFields) := by
  decide

/-- C1 counterexample: from a reachable open state, the trigger action's
`destroy` leaves the hide timer pending (it calls `hide()`, which starts
it), and the hide timer's callback then fires after `destroy` returned
and commits `OpenState` — refuting "destroy synchronously stops both
timers" and "no timer callback later commits OpenState". -/
theorem tooltip_destroy_leaves_hide_timer :
    (destroy tooltipDemoOpen).hidePending = true ∧
    (fireHideTimer (destroy tooltipDemoOpen)).log =
      (destroy tooltipDemoOpen).log ++ [LogEntry.commitOpen false] := by
  decide

/-- C1 amended: the teardown returned by `useTooltipTrigger`
synchronously invokes the current attachment cleanup, removes the event
listeners, unsubscribes the internal observer and stops the show timer,
but — because it ends by calling `hide()` — it starts the hide timer, so
the hide timer is pending when `destroy` returns and its callback can
still fire afterwards. -/
theorem tooltip_destroy_behavior (s : TooltipState) (k : Nat)
    (h : s.cleanup = some k) :
    (destroy s).showPending = false ∧ (destroy s).hidePending = true ∧
    (destroy s).subscribed = false ∧ (destroy s).eventsAttached = false ∧
    (destroy s).log = s.log ++ [LogEntry.cleanupRun k] := by
  simp [destroy, hide, startHideTimer, stopShowTimer, invokeCleanup, h]

/-- Witness for the amended C1 theorem at the reachable open state. -/
theorem tooltip_destroy_behavior_witness :
    tooltipDemoOpen.cleanup = some 1 ∧
    ((destroy tooltipDemoOpen).showPending = false ∧
      (destroy tooltipDemoOpen).hidePending = true ∧
      (destroy tooltipDemoOpen).subscribed = false ∧
      (destroy tooltipDemoOpen).eventsAttached = false ∧
      (destroy tooltipDemoOpen).log =
        tooltipDemoOpen.log ++ [LogEntry.cleanupRun 1]) :=
  ⟨by decide, tooltip_destroy_behavior tooltipDemoOpen 1 (by decide)⟩

/-- C2 counterexample: after the reachable attached-open state, closing
invokes handle 1 but leaves it stored (`cleanup` is still `some 1`, not
a no-op), and the subsequent teardown re-invokes the same handle, so the
log holds two invocations of handle 1 — refuting "replaced with a no-op"
and "invoked exactly once, never re-invoked". -/
theorem tooltip_cleanup_reinvoked :
    (toggle tooltipDemoOpen).cleanup = some 1 ∧
    (toggle tooltipDemoOpen).log.count (LogEntry.cleanupRun 1) = 1 ∧
    (destroy (toggle tooltipDemoOpen)).log.count (LogEntry.cleanupRun 1) = 2 := by
  decide

/-- C2 amended: whenever the combined condition (open AND overlay
element present) transitions from true to false, the stored cleanup
handle is invoked — but it is retained rather than replaced with a
no-op, so a later teardown (or any further detach-side notification)
invokes the same handle again; the re-invocation is tolerated because
the placement service's cleanup must be safe to call repeatedly. -/
theorem tooltip_detach_invokes_cleanup (s : TooltipState) (k : Nat)
    (h1 : s.subscribed = true) (h2 : s.isOpen = true)
    (_h3 : s.tooltipElement.isSome = true) (h4 : s.cleanup = some k) :
    (setOpen s false).log = s.log ++ [LogEntry.commitOpen false, LogEntry.cleanupRun k] ∧
    (setOpen s false).cleanup = some k ∧
    (destroy (setOpen s false)).log =
      s.log ++ [LogEntry.commitOpen false, LogEntry.cleanupRun k, LogEntry.cleanupRun k] := by
  simp [setOpen, h2, react, h1, invokeCleanup, h4, destroy, hide,
    startHideTimer, stopShowTimer]

/-- Witness for the amended C2 theorem at the reachable attached-open
state. -/
theorem tooltip_detach_invokes_cleanup_witness :
    (tooltipDemoOpen.subscribed = true ∧ tooltipDemoOpen.isOpen = true ∧
      tooltipDemoOpen.tooltipElement.isSome = true ∧
      tooltipDemoOpen.cleanup = some 1) ∧
    ((setOpen tooltipDemoOpen false).log =
        tooltipDemoOpen.log ++ [LogEntry.commitOpen false, LogEntry.cleanupRun 1] ∧
      (setOpen tooltipDemoOpen false).cleanup = some 1 ∧
      (destroy (setOpen tooltipDemoOpen false)).log =
        tooltipDemoOpen.log ++ [LogEntry.commitOpen false, LogEntry.cleanupRun 1,
          LogEntry.cleanupRun 1]) :=
  ⟨⟨by decide, by decide, by decide, by decide⟩,
    tooltip_detach_invokes_cleanup tooltipDemoOpen 1 (by decide) (by decide)
      (by decide) (by decide)⟩

/-- The state after `n` full toggle cycles from the mounted closed
state is exactly `cycleState n`. -/
lemma toggleCycles_eq_cycleState (n : Nat) :
    toggleCycles tooltipDemoClosed n = cycleState n := by
  induction n with
  | zero => decide
  | succ n ih =>
      rw [toggleCycles, ih]
      cases n with
      | zero => decide
      | succ m =>
          simp [cycleState, toggle, setOpen, react, init, invokeCleanup,
            cycleLog, List.append_assoc]

/-- Each cycle adds exactly one attach call to the log. -/
lemma attachCount_cycleLog (n : Nat) : attachCount (cycleLog n) = n := by
  induction n with
  | zero => rfl
  | succ n ih =>
      cases n with
      | zero => decide
      | succ m =>
          simp [cycleLog, attachCount, List.countP_append, List.countP_cons] at ih ⊢
          omega

/-- Each cycle after the first adds two cleanup-handle invocations to
the log; the first adds one. -/
lemma cleanupRunCount_cycleLog (n : Nat) :
    cleanupRunCount (cycleLog n) = 2 * n - 1 := by
  induction n with
  | zero => rfl
  | succ n ih =>
      cases n with
      | zero => decide
      | succ m =>
          simp [cycleLog, cleanupRunCount, List.countP_append, List.countP_cons]
            at ih ⊢
          omega

/-- `cycleLog` grows by appending: any earlier cycle log is a prefix. -/
lemma cycleLog_prefix (i n : Nat) (h : i ≤ n) :
    ∃ rest, cycleLog n = cycleLog i ++ rest := by
  induction n with
  | zero =>
      refine ⟨[], ?_⟩
      obtain rfl : i = 0 := Nat.le_zero.mp h
      simp
  | succ n ih =>
      rcases Nat.lt_or_ge i (n + 1) with hlt | hge
      · obtain ⟨rest, hr⟩ := ih (Nat.lt_succ_iff.mp hlt)
        exact ⟨rest ++ ([LogEntry.commitOpen true]
          ++ (if n = 0 then [] else [LogEntry.cleanupRun n])
          ++ [LogEntry.attach (n + 1), LogEntry.commitOpen false,
              LogEntry.cleanupRun (n + 1)]), by
          rw [cycleLog, hr]; simp [List.append_assoc]⟩
      · obtain rfl : i = n + 1 := Nat.le_antisymm h hge
        exact ⟨[], by simp⟩

/-- Within any run of cycles, the invocation of the cleanup of attach
`i` appears in the log before attach `i + 1`. -/
lemma cleanupRun_before_next_attach (i n : Nat) (h1 : 1 ≤ i)
    (h2 : i + 1 ≤ n) :
    [LogEntry.cleanupRun i, LogEntry.attach (i + 1)].Sublist (cycleLog n) := by
  obtain ⟨rest, hr⟩ := cycleLog_prefix (i + 1) n h2
  rw [hr]
  refine List.Sublist.trans ?_ (List.sublist_append_left _ _)
  obtain ⟨m, rfl⟩ : ∃ m, i = m + 1 := ⟨i - 1, by omega⟩
  rw [cycleLog]
  simp only [Nat.succ_ne_zero, if_false]
  rw [List.append_assoc (cycleLog (m + 1) ++ [LogEntry.commitOpen true])]
  refine List.Sublist.trans ?_ (List.sublist_append_right _ _)
  simp

/-- C3 counterexample: two full open/close toggle cycles from the
mounted closed state produce 2 attach calls but 3 invocations of
returned cleanup handles (handle 1 is re-invoked when attachment 2 is
set up), refuting "exactly N attach calls and exactly N invocations". -/
theorem tooltip_two_cycles_three_cleanups :
    attachCount (toggleCycles tooltipDemoClosed 2).log = 2 ∧
    cleanupRunCount (toggleCycles tooltipDemoClosed 2).log = 3 := by
  decide

/-- C3 amended: `n` full open/close toggle cycles from the mounted
closed state produce the log `cycleLog n`: exactly `n` attach calls and
`2n - 1` cleanup-handle invocations — the cleanup of attach `i` is
invoked on close `i` and then re-invoked at the start of attach `i + 1`
(only the final handle is invoked once) — and the cleanup of attach `i`
is always invoked before attach `i + 1` begins. -/
theorem tooltip_toggle_cycle_accounting (n : Nat) :
    (toggleCycles tooltipDemoClosed n).log = cycleLog n ∧
    attachCount (cycleLog n) = n ∧
    cleanupRunCount (cycleLog n) = 2 * n - 1 ∧
    (∀ i, 1 ≤ i → i + 1 ≤ n →
      [LogEntry.cleanupRun i, LogEntry.attach (i + 1)].Sublist (cycleLog n)) := by
  refine ⟨?_, attachCount_cycleLog n, cleanupRunCount_cycleLog n,
    fun i h1 h2 => cleanupRun_before_next_attach i n h1 h2⟩
  rw [toggleCycles_eq_cycleState]
  rfl

/-- Witness for the amended C3 theorem at two cycles, with the ordering
conjunct instantiated at `i = 1`. -/
theorem tooltip_toggle_cycle_accounting_witness :
    (toggleCycles tooltipDemoClosed 2).log = cycleLog 2 ∧
    attachCount (cycleLog 2) = 2 ∧
    cleanupRunCount (cycleLog 2) = 3 ∧
    [LogEntry.cleanupRun 1, LogEntry.attach 2].Sublist (cycleLog 2) :=
  ⟨(tooltip_toggle_cycle_accounting 2).1,
    (tooltip_toggle_cycle_accounting 2).2.1,
    (tooltip_toggle_cycle_accounting 2).2.2.1,
    (tooltip_toggle_cycle_accounting 2).2.2.2 1 (by decide) (by decide)⟩

/-- Invoking the menu cleanup handle only appends to the log. -/
lemma menuInvokeCleanup_fields (s : MenuState) :
    (menuInvokeCleanup s).isOpen = s.isOpen ∧
    (menuInvokeCleanup s).triggerMounted = s.triggerMounted ∧
    (menuInvokeCleanup s).log.count LogEntry.focusTrigger =
      s.log.count LogEntry.focusTrigger := by
  unfold menuInvokeCleanup
  split
  · exact ⟨rfl, rfl, rfl⟩
  · refine ⟨rfl, rfl, ?_⟩
    simp [List.count_append, List.count_cons]

/-- Setting up a placement attachment preserves the open flag, the
trigger presence and the number of trigger-focus events. -/
lemma setupPlacement_fields (s : MenuState) :
    (setupPlacement s).isOpen = s.isOpen ∧
    (setupPlacement s).triggerMounted = s.triggerMounted ∧
    (setupPlacement s).log.count LogEntry.focusTrigger =
      s.log.count LogEntry.focusTrigger := by
  unfold setupPlacement
  obtain ⟨h1, h2, h3⟩ := menuInvokeCleanup_fields s
  refine ⟨h1, h2, ?_⟩
  simp [List.count_append, List.count_cons, h3]

/-- The joint subscriber preserves the open flag, the trigger presence
and the number of trigger-focus events. -/
lemma menuReact_fields (s : MenuState) :
    (menuReact s).isOpen = s.isOpen ∧
    (menuReact s).triggerMounted = s.triggerMounted ∧
    (menuReact s).log.count LogEntry.focusTrigger =
      s.log.count LogEntry.focusTrigger := by
  unfold menuReact
  split
  · exact ⟨rfl, rfl, rfl⟩
  · split
    · split
      · obtain ⟨h1, h2, h3⟩ := setupPlacement_fields s
        exact ⟨h1, h2, h3⟩
      · exact menuInvokeCleanup_fields (clearActiveItem s)
    · exact menuInvokeCleanup_fields (clearActiveItem s)

/-- The deferred focus turn does not change the open flag, the item
list, the active item or the trigger-focus count. -/
lemma menuTick_fields (s : MenuState) :
    (menuTick s).isOpen = s.isOpen ∧ (menuTick s).items = s.items ∧
    (menuTick s).activeIndex = s.activeIndex ∧
    (menuTick s).triggerMounted = s.triggerMounted ∧
    (menuTick s).log.count LogEntry.focusTrigger =
      s.log.count LogEntry.focusTrigger := by
  unfold menuTick
  split
  · refine ⟨rfl, rfl, rfl, rfl, ?_⟩
    split <;> simp [List.count_append, List.count_cons]
  · exact ⟨rfl, rfl, rfl, rfl, rfl⟩

/-- Projection form of `menuReact_fields` for rewriting. -/
lemma menuReact_isOpen (s : MenuState) : (menuReact s).isOpen = s.isOpen :=
  (menuReact_fields s).1

/-- Projection form of `menuReact_fields` for rewriting. -/
lemma menuReact_triggerMounted (s : MenuState) :
    (menuReact s).triggerMounted = s.triggerMounted :=
  (menuReact_fields s).2.1

/-- Projection form of `menuReact_fields` for rewriting. -/
lemma menuReact_countFocusTrigger (s : MenuState) :
    (menuReact s).log.count LogEntry.focusTrigger =
      s.log.count LogEntry.focusTrigger :=
  (menuReact_fields s).2.2

/-- C8: an Escape keydown on the open overlay sets `OpenState` to false
and moves focus to the trigger element; an Escape keydown on the trigger
sets `OpenState` to false without moving focus to the trigger. -/
theorem menu_escape_behavior (s : MenuState) (h1 : s.isOpen = true)
    (h2 : s.triggerMounted = true) :
    (menuKeydown s Key.escape).isOpen = false ∧
    (menuKeydown s Key.escape).log.count LogEntry.focusTrigger =
      s.log.count LogEntry.focusTrigger + 1 ∧
    (triggerKeydown s Key.escape).isOpen = false ∧
    (triggerKeydown s Key.escape).log.count LogEntry.focusTrigger =
      s.log.count LogEntry.focusTrigger := by
  simp [menuKeydown, triggerKeydown, menuHide, menuSetOpen, h1, h2,
    menuReact_isOpen, menuReact_triggerMounted, menuReact_countFocusTrigger,
    List.count_append, List.count_cons]

/-- Witness for the C8 theorem at the reachable open menu state. -/
theorem menu_escape_behavior_witness :
    (menuDemoOpen.isOpen = true ∧ menuDemoOpen.triggerMounted = true) ∧
    ((menuKeydown menuDemoOpen Key.escape).isOpen = false ∧
      (menuKeydown menuDemoOpen Key.escape).log.count LogEntry.focusTrigger =
        menuDemoOpen.log.count LogEntry.focusTrigger + 1 ∧
      (triggerKeydown menuDemoOpen Key.escape).isOpen = false ∧
      (triggerKeydown menuDemoOpen Key.escape).log.count LogEntry.focusTrigger =
        menuDemoOpen.log.count LogEntry.focusTrigger) :=
  ⟨⟨by decide, by decide⟩,
    menu_escape_behavior menuDemoOpen (by decide) (by decide)⟩

/-- Projection form of `menuTick_fields` for rewriting. -/
lemma menuTick_isOpen (s : MenuState) : (menuTick s).isOpen = s.isOpen :=
  (menuTick_fields s).1

/-- Projection form of `menuTick_fields` for rewriting. -/
lemma menuTick_items (s : MenuState) : (menuTick s).items = s.items :=
  (menuTick_fields s).2.1

/-- C9: from the closed state with the trigger wired and the overlay
element present, an ArrowDown (resp. ArrowUp) keydown on the trigger
commits `OpenState` to true, derives the item list from the overlay,
and — after the deferred focus turn — activates (focuses) the first
(resp. last) item not excluded by the skip predicate. -/
theorem menu_arrow_opens_and_activates (s : MenuState)
    (overlay : List MenuItem) (i j : Nat)
    (h1 : s.isOpen = false) (h2 : s.subscribed = true)
    (h3 : s.overlayElement = some overlay)
    (h4 : findFirstEligible overlay = some i)
    (h5 : findLastEligible overlay = some j)
    (h6 : s.cleanup = none) (h7 : s.deferredFocusOverlay = false) :
    (triggerKeydown s Key.arrowDown).isOpen = true ∧
    (triggerKeydown s Key.arrowDown).items = overlay ∧
    (triggerKeydown s Key.arrowDown).activeIndex = some i ∧
    (triggerKeydown s Key.arrowDown).log =
      s.log ++ [LogEntry.commitOpen true, LogEntry.attach s.nextAttach,
        LogEntry.focusOverlay, LogEntry.focusItem i] ∧
    (triggerKeydown s Key.arrowUp).isOpen = true ∧
    (triggerKeydown s Key.arrowUp).activeIndex = some j ∧
    (triggerKeydown s Key.arrowUp).log =
      s.log ++ [LogEntry.commitOpen true, LogEntry.attach s.nextAttach,
        LogEntry.focusOverlay, LogEntry.focusItem j] := by
  simp [triggerKeydown, openMenuWithArrow, menuSetOpen, h1, menuReact, h2, h3,
    setupPlacement, menuInvokeCleanup, h6, menuTick, h7, setFirstItemActive,
    setLastItemActive, h4, h5, clearActiveItem, List.append_assoc]

/-- Witness for the C9 theorem at the ready (mounted, closed) menu. -/
theorem menu_arrow_opens_and_activates_witness :
    (menuDemoReady.isOpen = false ∧ menuDemoReady.subscribed = true ∧
      menuDemoReady.overlayElement = some demoItems ∧
      findFirstEligible demoItems = some 1 ∧
      findLastEligible demoItems = some 2 ∧
      menuDemoReady.cleanup = none ∧
      menuDemoReady.deferredFocusOverlay = false) ∧
    ((triggerKeydown menuDemoReady Key.arrowDown).isOpen = true ∧
      (triggerKeydown menuDemoReady Key.arrowDown).items = demoItems ∧
      (triggerKeydown menuDemoReady Key.arrowDown).activeIndex = some 1 ∧
      (triggerKeydown menuDemoReady Key.arrowDown).log =
        menuDemoReady.log ++ [LogEntry.commitOpen true,
          LogEntry.attach menuDemoReady.nextAttach,
          LogEntry.focusOverlay, LogEntry.focusItem 1] ∧
      (triggerKeydown menuDemoReady Key.arrowUp).isOpen = true ∧
      (triggerKeydown menuDemoReady Key.arrowUp).activeIndex = some 2 ∧
      (triggerKeydown menuDemoReady Key.arrowUp).log =
        menuDemoReady.log ++ [LogEntry.commitOpen true,
          LogEntry.attach menuDemoReady.nextAttach,
          LogEntry.focusOverlay, LogEntry.focusItem 2]) :=
  ⟨⟨by decide, by decide, by decide, by decide, by decide, by decide, by decide⟩,
    menu_arrow_opens_and_activates menuDemoReady demoItems 1 2 (by decide)
      (by decide) (by decide) (by decide) (by decide) (by decide) (by decide)⟩

/-- C10: when the menu is already open, ArrowDown or ArrowUp on the
trigger never closes it — `open$.set(true)` is a no-change commit — and
re-activates the first (resp. last) eligible item, whereas Enter, Space
or a click on the trigger toggles the open menu closed. -/
theorem menu_arrow_keeps_open (s : MenuState) (i j : Nat)
    (h1 : s.isOpen = true)
    (h4 : findFirstEligible s.items = some i)
    (h5 : findLastEligible s.items = some j) :
    (triggerKeydown s Key.arrowDown).isOpen = true ∧
    (triggerKeydown s Key.arrowDown).activeIndex = some i ∧
    (triggerKeydown s Key.arrowUp).isOpen = true ∧
    (triggerKeydown s Key.arrowUp).activeIndex = some j ∧
    (triggerKeydown s Key.enter).isOpen = false ∧
    (triggerKeydown s Key.space).isOpen = false ∧
    (triggerClick s).isOpen = false := by
  simp [triggerKeydown, triggerClick, menuToggle, openMenuWithArrow,
    menuSetOpen, h1, menuReact_isOpen, menuTick_isOpen, menuTick_items,
    setFirstItemActive, setLastItemActive, h4, h5]

/-- Witness for the C10 theorem at the reachable open menu state. -/
theorem menu_arrow_keeps_open_witness :
    (menuDemoOpen.isOpen = true ∧
      findFirstEligible menuDemoOpen.items = some 1 ∧
      findLastEligible menuDemoOpen.items = some 2) ∧
    ((triggerKeydown menuDemoOpen Key.arrowDown).isOpen = true ∧
      (triggerKeydown menuDemoOpen Key.arrowDown).activeIndex = some 1 ∧
      (triggerKeydown menuDemoOpen Key.arrowUp).isOpen = true ∧
      (triggerKeydown menuDemoOpen Key.arrowUp).activeIndex = some 2 ∧
      (triggerKeydown menuDemoOpen Key.enter).isOpen = false ∧
      (triggerKeydown menuDemoOpen Key.space).isOpen = false ∧
      (triggerClick menuDemoOpen).isOpen = false) :=
  ⟨⟨by decide, by decide, by decide⟩,
    menu_arrow_keeps_open menuDemoOpen 1 2 (by decide) (by decide) (by decide)⟩

end GrailUI
